import Mathlib

/-!
Verification of the RASP native detection module
(`native-lib.cpp`, `native-obfuscator.cpp`).

Files are modelled as `Option (List (List Char))`: `none` is an unopenable
file, otherwise the list of lines delivered by `fgets` (without the
trailing newline handling, which none of the probes depend on).
Bytes are natural numbers; C `uint8_t` arithmetic coincides with `Nat`
arithmetic on values below 256 for the operations used (XOR, AND).
-/

namespace RASP

/-! ## C string utilities used by the probes -/

/-- `strstr(hay, needle) != NULL`: `needle` occurs as a contiguous
substring of `hay` (the empty needle always matches). -/
def strstr (hay needle : List Char) : Bool :=
  needle.isPrefixOf hay ||
    match hay with
    | [] => false
    | _ :: t => strstr t needle

/-- `isspace` on the characters relevant to `atoi` / `sscanf`. -/
def isSpaceC (c : Char) : Bool :=
  c = ' ' || c = '\t' || c = '\n' || c = '\x0b' || c = '\x0c' || c = '\r'

/-- Accumulate a decimal value over a leading run of digits, as the digit
loop of `atoi` does. -/
def digitsAcc : Nat → List Char → Nat
  | acc, [] => acc
  | acc, c :: t => if c.isDigit then digitsAcc (acc * 10 + (c.toNat - 48)) t else acc

/-- C `atoi`: skip whitespace, optional sign, then a (possibly empty) run
of digits; no digits yields 0. -/
def atoi (s : List Char) : Int :=
  match s.dropWhile isSpaceC with
  | '-' :: t => -(digitsAcc 0 t : Int)
  | '+' :: t => (digitsAcc 0 t : Int)
  | t => (digitsAcc 0 t : Int)

/-- `sscanf`-style `%d`: skip whitespace, optional sign, then at least one
digit is required for a successful conversion; `none` is a matching
failure (the output variable is then left unassigned). -/
def scanDecimal (s : List Char) : Option Int :=
  match s.dropWhile isSpaceC with
  | '-' :: c :: t => if c.isDigit then some (-(digitsAcc 0 (c :: t) : Int)) else none
  | '+' :: c :: t => if c.isDigit then some ((digitsAcc 0 (c :: t) : Int)) else none
  | c :: t => if c.isDigit then some ((digitsAcc 0 (c :: t) : Int)) else none
  | [] => none

/-! ## String scrambling (`decrypt_string`, native-obfuscator.cpp:18-28) -/

/-- The compiled-in rolling XOR key (`XOR_KEY`). -/
def XOR_KEY : List Nat := [0xAB, 0xCD, 0xEF, 0x12, 0x34, 0x56, 0x78, 0x9A]

/-- The key byte combined with position `i` and the seed:
`XOR_KEY[i % XOR_KEY_LEN] ^ ((seed + i) & 0xFF)`. -/
def keyByte (seed i : Nat) : Nat :=
  XOR_KEY.getD (i % 8) 0 ^^^ ((seed + i) &&& 0xFF)

/-- The loop body of `decrypt_string`, carrying the running index. -/
def decryptFrom (seed : Nat) : Nat → List Nat → List Nat
  | _, [] => []
  | i, b :: t => (b ^^^ keyByte seed i) :: decryptFrom seed (i + 1) t

/-- `decrypt_string(encrypted, len, seed)`: XOR every byte with its
position-dependent key byte. -/
def decrypt_string (encrypted : List Nat) (seed : Nat) : List Nat :=
  decryptFrom seed 0 encrypted

/-! ## Signal latch (`debugger_detected`, native-lib.cpp:20-38, 69-86) -/

/-- The signal numbers the two handlers discriminate on. -/
inductive Sig where
  | SIGTRAP | SIGSTOP | SIGCONT | otherSig
deriving DecidableEq, Repr

/-- The process-wide flag `debugger_detected` (a `sig_atomic_t` holding 0
or 1). -/
structure SignalState where
  debugger_detected : Bool
deriving DecidableEq, Repr

/-- `sigtrap_handler`: sets the flag when invoked with SIGTRAP. -/
def sigtrap_handler (signum : Sig) (st : SignalState) : SignalState :=
  if signum = Sig.SIGTRAP then { debugger_detected := true } else st

/-- `sigstop_handler`: sets the flag when invoked with SIGSTOP or SIGCONT. -/
def sigstop_handler (signum : Sig) (st : SignalState) : SignalState :=
  if signum = Sig.SIGSTOP ∨ signum = Sig.SIGCONT then { debugger_detected := true } else st

/-- `nativeSignalCheck` after handler installation: a snapshot read of the
flag (the handler-installation calls do not touch the flag). -/
def nativeSignalCheck (st : SignalState) : Bool :=
  st.debugger_detected

/-- The operations of the module that can run between two queries: an
asynchronous invocation of either handler, a query, or any of the other
native entry points (none of which reads or writes `debugger_detected`;
the only assignments in the module are the two handlers setting it to 1). -/
inductive ModuleOp where
  | deliverTrap : Sig → ModuleOp
  | deliverStopCont : Sig → ModuleOp
  | signalCheckCall : ModuleOp
  | otherNativeCall : ModuleOp
deriving DecidableEq, Repr

/-- Effect of one module operation on the flag state. -/
def stepOp : ModuleOp → SignalState → SignalState
  | ModuleOp.deliverTrap s, st => sigtrap_handler s st
  | ModuleOp.deliverStopCont s, st => sigstop_handler s st
  | ModuleOp.signalCheckCall, st => st
  | ModuleOp.otherNativeCall, st => st

/-- Run a sequence of module operations. -/
def runOps : List ModuleOp → SignalState → SignalState
  | [], st => st
  | op :: rest, st => runOps rest (stepOp op st)

/-- Whether an operation sets the flag (a handler invocation with one of
its recognised signal numbers). -/
def setsFlag : ModuleOp → Bool
  | ModuleOp.deliverTrap s => decide (s = Sig.SIGTRAP)
  | ModuleOp.deliverStopCont s => decide (s = Sig.SIGSTOP ∨ s = Sig.SIGCONT)
  | ModuleOp.signalCheckCall => false
  | ModuleOp.otherNativeCall => false

/-! ## Ptrace state model

The spec treats the OS tracing primitives abstractly: a trace-self
request (`PTRACE_TRACEME`) makes the process traced unless it already is
(then it fails with EPERM), and a detach request reverses a previously
successful trace-self request; a detach cannot remove an externally
attached debugger. The traced state is split accordingly. -/

/-- Tracing-related process state. -/
structure ProcState where
  /-- an external tracer (a real debugger) is attached -/
  tracedByDebugger : Bool
  /-- this process has an unreversed successful trace-self request -/
  selfTraceRequested : Bool
deriving DecidableEq, Repr

/-- The process is traced (by either mechanism). -/
def ProcState.traced (s : ProcState) : Bool :=
  s.tracedByDebugger || s.selfTraceRequested

/-- Outcome of a `PTRACE_TRACEME` call. -/
inductive PtraceOutcome where
  | ok | epermFail | otherFail
deriving DecidableEq, Repr

/-- Nondeterminism of the OS resolved up front: whether a trace-self
request on an untraced process fails with some errno other than EPERM. -/
structure PtraceEnv where
  tracemeOtherFail : Bool
deriving DecidableEq, Repr

/-- `ptrace(PTRACE_TRACEME, 0, 1, 0)`: EPERM when already traced,
otherwise either an environment-chosen non-EPERM failure (no state
change) or success, which records the trace-self request. -/
def traceme (env : PtraceEnv) (s : ProcState) : PtraceOutcome × ProcState :=
  if s.traced then (PtraceOutcome.epermFail, s)
  else if env.tracemeOtherFail then (PtraceOutcome.otherFail, s)
  else (PtraceOutcome.ok, { s with selfTraceRequested := true })

/-- `ptrace(PTRACE_DETACH, 0, 1, 0)` issued by the process itself:
reverses its own trace-self request; it cannot remove an external
tracer. -/
def detach (s : ProcState) : ProcState :=
  { s with selfTraceRequested := false }

/-- One run of `nativePtraceCheck` (native-lib.cpp:50-67): the returned
boolean, the post state, and whether the detach call was reached. -/
structure PtraceCheckRun where
  result : Bool
  post : ProcState
  detachPerformed : Bool
deriving DecidableEq, Repr

/-- `Java_..._DebuggerDetection_nativePtraceCheck`: attempt trace-self;
on EPERM return Suspicious at once (no detach); on any other outcome fall
through to the unconditional detach and return Clear. -/
def nativePtraceCheck (env : PtraceEnv) (s : ProcState) : PtraceCheckRun :=
  match traceme env s with
  | (PtraceOutcome.epermFail, s1) => ⟨true, s1, false⟩
  | (PtraceOutcome.otherFail, s1) => ⟨false, detach s1, true⟩
  | (PtraceOutcome.ok, s1) => ⟨false, detach s1, true⟩

/-! ## System hardening (`nativeHardenSystem`, native-lib.cpp:394-415) -/

/-- Environment for one `nativeHardenSystem` call. -/
structure HardenEnv where
  /-- `prctl(PR_SET_DUMPABLE, 0)` fails -/
  prctlFails : Bool
  ptrace : PtraceEnv
deriving DecidableEq, Repr

/-- One run of `nativeHardenSystem`: result, post state, and which ptrace
requests were issued. -/
structure HardenRun where
  result : Bool
  post : ProcState
  tracemeIssued : Bool
  detachIssued : Bool
deriving DecidableEq, Repr

/-- `Java_..._RASP_nativeHardenSystem`: disable core dumps (failure ⇒
false); then trace-self, returning false only on an EPERM failure; every
other path returns true. The function contains no detach call. -/
def nativeHardenSystem (env : HardenEnv) (s : ProcState) : HardenRun :=
  if env.prctlFails then ⟨false, s, false, false⟩
  else
    match traceme env.ptrace s with
    | (PtraceOutcome.epermFail, s1) => ⟨false, s1, true, false⟩
    | (PtraceOutcome.otherFail, s1) => ⟨true, s1, true, false⟩
    | (PtraceOutcome.ok, s1) => ⟨true, s1, true, false⟩

/-! ## Obfuscated debugger check
(`check_debugger_obfuscated`, native-obfuscator.cpp:52-107) -/

/-- The clock-based always-true predicate of the obfuscation layer:
`(now > 0) || (now <= 0)` on a fresh clock reading. -/
def alwaysTruePred (now : Int) : Bool :=
  decide (0 < now) || decide (now ≤ 0)

/-- The clock-based always-false predicate: `now < 0` on a monotonic
clock reading (analytically false for the nonnegative readings the spec
assumes; kept as a function of the reading). -/
def clockNegPred (now : Int) : Bool :=
  decide (now < 0)

/-- `inject_dead_code`: its body only touches a local vector inside the
always-false predicate, so it has no observable effect. -/
def inject_dead_code : Unit := ()

/-- The label searched for by the TracerPid probes. -/
def tracerPidLabel : List Char := "TracerPid:".toList

/-- `sscanf(line, "TracerPid: %d", &pid)`: the literal must match at the
start of the line, then whitespace is skipped and a decimal integer is
converted; `none` is a matching failure, leaving `pid` unassigned. -/
def sscanfTracerPid (l : List Char) : Option Int :=
  if tracerPidLabel.isPrefixOf l then scanDecimal (l.drop 10) else none

/-- Branch 1 of the obfuscated check: scan the status lines; on any line
containing `TracerPid:` anywhere, read the converted value (or the junk
value of the uninitialised variable on a matching failure); nonzero stops
the scan with Suspicious, zero continues. -/
def tracerScan (junk : Int) : List (List Char) → Bool
  | [] => false
  | l :: rest =>
    if strstr l tracerPidLabel then
      if (sscanfTracerPid l).getD junk ≠ 0 then true else tracerScan junk rest
    else tracerScan junk rest

/-- Environment state read by `check_debugger_obfuscated`. -/
structure ObfEnv where
  ptrace : PtraceEnv
  /-- contents of `/proc/self/status` -/
  status : Option (List (List Char))
  /-- `getenv("DEBUG")` is non-null -/
  debugEnvSet : Bool
  /-- `getenv("ANDROID_DEBUG")` is non-null -/
  androidDebugEnvSet : Bool
  /-- value observed in the uninitialised `pid` after an `sscanf`
  matching failure -/
  junkInt : Int
  /-- clock reading feeding the always-true predicate of the selected
  branch -/
  clockReading : Int
deriving Repr

/-- Branch 0's probe result: Suspicious iff the trace-self request did
not succeed (any `-1` return, regardless of errno). -/
def ptraceProbeResult (env : ObfEnv) (s : ProcState) : Bool :=
  decide ((traceme env.ptrace s).1 ≠ PtraceOutcome.ok)

/-- Branch 1's probe result over the status file. -/
def tracerPidProbe (env : ObfEnv) : Bool :=
  match env.status with
  | none => false
  | some lines => tracerScan env.junkInt lines

/-- The default branch's probe result: a debugging environment variable
is present. -/
def envVarProbe (env : ObfEnv) : Bool :=
  env.debugEnvSet || env.androidDebugEnvSet

/-- One run of `check_debugger_obfuscated`: result, post tracing state,
and whether a detach was performed. -/
structure ObfRun where
  result : Bool
  post : ProcState
  detachPerformed : Bool
deriving Repr

/-- `check_debugger_obfuscated`: the clock-derived selector
(`... % 3`) picks one of three branches; case 0 runs the ptrace probe
followed by an unconditional detach, case 1 the TracerPid scan, and the
default case the environment-variable check. Each branch is gated by the
always-true predicate. -/
def check_debugger_obfuscated (env : ObfEnv) (s : ProcState) (branch : Int) : ObfRun :=
  if branch = 0 then
    if alwaysTruePred env.clockReading then
      let t := traceme env.ptrace s
      ⟨decide (t.1 ≠ PtraceOutcome.ok), detach t.2, true⟩
    else ⟨false, s, false⟩
  else if branch = 1 then
    ⟨if alwaysTruePred env.clockReading then tracerPidProbe env else false, s, false⟩
  else
    ⟨if alwaysTruePred env.clockReading then envVarProbe env else false, s, false⟩

/-! ## Tracer-id probe (`nativeDebuggerCheck`, native-lib.cpp:113-139) -/

/-- The line loop of `nativeDebuggerCheck`: at the first line whose first
ten characters are `TracerPid:` the file is closed and the probe returns
whether `atoi` of the rest of that line is nonzero; later lines are not
consulted. -/
def debuggerCheckLines : List (List Char) → Bool
  | [] => false
  | l :: rest =>
    if tracerPidLabel.isPrefixOf l then decide (atoi (l.drop 10) ≠ 0)
    else debuggerCheckLines rest

/-- `Java_..._DebuggerDetection_nativeDebuggerCheck`: an unopenable
status file yields Clear; otherwise the line loop decides. -/
def nativeDebuggerCheck : Option (List (List Char)) → Bool
  | none => false
  | some lines => debuggerCheckLines lines

/-! ## Executable-region audit (`nativeMemoryCheck`, native-lib.cpp:305-343) -/

/-- The private read-execute permission string looked for by the map
scan. -/
def rxpChars : List Char := "r-xp".toList

/-- The private writable-and-executable permission string. -/
def rwxpChars : List Char := "rwxp".toList

/-- The counting loop of `nativeMemoryCheck`: a line is counted as
writable+executable when it passes the executable-region test and
contains `rwxp`. -/
def wxCountLines : List (List Char) → Nat
  | [] => 0
  | l :: rest =>
    (if (strstr l rxpChars || strstr l rwxpChars) && strstr l rwxpChars then 1 else 0)
      + wxCountLines rest

/-- `Java_..._TamperDetection_nativeMemoryCheck`: Suspicious when the
number of writable+executable lines exceeds 5; an unopenable maps file
yields Clear. -/
def nativeMemoryCheck : Option (List (List Char)) → Bool
  | none => false
  | some lines => decide (5 < wxCountLines lines)

/-! ## Breakpoint-opcode scan (`nativeBreakpointScan`, native-lib.cpp:359-391) -/

/-- The little-endian 32-bit word read at byte offset `i` of the scan
buffer (`*(uint32_t*)(memory + i)` on the little-endian targets). -/
def word32 (buf : Nat → Nat) (i : Nat) : Nat :=
  buf i + 256 * buf (i + 1) + 65536 * buf (i + 2) + 16777216 * buf (i + 3)

/-- The masked ARM breakpoint-pattern test applied at offset `i`:
`(word & 0xFFF000F0) == 0xE1200070`. -/
def armBreakpointAt (buf : Nat → Nat) (i : Nat) : Bool :=
  word32 buf i &&& 0xFFF000F0 == 0xE1200070

/-- `Java_..._TamperDetection_nativeBreakpointScan` on a 4 KiB scan
buffer: for each offset `i < 4096`, a `0xCC` byte is Suspicious, and for
`i < 4096 - 3` the four bytes at `i` are tested against the ARM
breakpoint pattern; no match at any offset yields Clear. -/
def nativeBreakpointScan (buf : Nat → Nat) : Bool :=
  (List.range 4096).any fun i =>
    buf i == 0xCC || (decide (i < 4093) && armBreakpointAt buf i)

/-! ## Loaded-library hook scan (`nativeHookCheck`, native-lib.cpp:192-220) -/

/-- The configured case-sensitive instrumentation-tool substrings. -/
def suspicious_libs : List (List Char) :=
  ["frida".toList, "xposed".toList, "substrate".toList,
    "cydia".toList, "libhook".toList]

/-- The scan loop of `nativeHookCheck`: for each line in order, test the
tokens in order; the first match closes the file and reports that token
as evidence. -/
def hookScanLines : List (List Char) → Option (List Char)
  | [] => none
  | l :: rest =>
    match suspicious_libs.find? (fun tok => strstr l tok) with
    | some tok => some tok
    | none => hookScanLines rest

/-- `Java_..._HookDetection_nativeHookCheck`: `some tok` is the
Suspicious result with the logged token `tok` as evidence; `none` is
Clear (also for an unopenable maps file). -/
def nativeHookCheck : Option (List (List Char)) → Option (List Char)
  | none => none
  | some lines => hookScanLines lines

/-! ## Root detector (`nativeRootCheck`, native-lib.cpp:142-179) -/

/-- The fixed ordered list of superuser-binary probe paths. -/
def su_paths : List (List Char) :=
  ["/system/bin/su".toList, "/system/xbin/su".toList, "/system/sbin/su".toList,
    "/vendor/bin/su".toList, "/sbin/su".toList]

/-- The system mount-point substring looked for in mount-table lines. -/
def systemChars : List Char := "/system".toList

/-- The writable option substring looked for in mount-table lines. -/
def rwChars : List Char := "rw".toList

/-- Environment read by `nativeRootCheck`: which paths exist
(`access(p, F_OK) == 0`) and the contents of `/proc/mounts`. -/
structure RootEnv where
  fileExists : List Char → Bool
  mounts : Option (List (List Char))

/-- `Java_..._RootDetection_nativeRootCheck`: Suspicious at the first
existing superuser-binary path; otherwise scan the mount table for a line
containing both the system mount point and a writable token; an
unopenable mount table or an exhausted scan yields Clear. -/
def nativeRootCheck (env : RootEnv) : Bool :=
  if su_paths.any (fun p => env.fileExists p) then true
  else
    match env.mounts with
    | none => false
    | some lines => lines.any fun l => strstr l systemChars && strstr l rwChars

/-! ## Concrete fixtures used by counterexamples and witnesses -/

/-- A status record carrying a zero TracerPid field followed by a nonzero
one. -/
def dupTracerStatus : List (List Char) :=
  ["TracerPid:\t0".toList, "TracerPid:\t7".toList]

/-- A maps line with private writable-and-executable permissions. -/
def rwxpLine : List Char :=
  "7f8 rwxp 00000000 fd:00 123 /data/x.so".toList

/-- A scan buffer whose only breakpoint opcode sits at the last byte of
the window. -/
def bufLast : Nat → Nat := fun i => if i = 4095 then 0xCC else 0

/-- The all-zero scan buffer. -/
def bufZero : Nat → Nat := fun _ => 0

/-- A maps line naming an instrumentation agent library. -/
def fridaMapsLine : List Char :=
  "7ab r-xp 0 fd:00 9 /data/app/frida-agent-64.so".toList

/-- A mount-table line with the system partition mounted read-only. -/
def roMountLine : List Char :=
  "/dev/block/dm-0 /system ext4 ro,seclabel 0 0".toList

/-- A mount-table line with the system partition mounted writable. -/
def rwMountLine : List Char :=
  "/dev/block/dm-0 /system ext4 rw,seclabel 0 0".toList

/-- A root-detector environment with no superuser binary anywhere and a
writable system mount line. -/
def rootEnvW : RootEnv :=
  { fileExists := fun _ => false, mounts := some [rwMountLine] }

/-- An environment with no debugger indicator at all: the three probes of
the obfuscated check all agree (on Clear) here. -/
def obfCleanEnv : ObfEnv :=
  { ptrace := { tracemeOtherFail := false }, status := some [],
    debugEnvSet := false, androidDebugEnvSet := false,
    junkInt := 0, clockReading := 1 }

/-- The doubly-untraced process state. -/
def untracedState : ProcState :=
  { tracedByDebugger := false, selfTraceRequested := false }

end RASP

namespace RASP

/-! ## Theorems -/

/-- `strstr` agrees with contiguous-substring occurrence. -/
theorem strstr_iff (hay needle : List Char) :
    strstr hay needle = true ↔ ∃ pre post, pre ++ needle ++ post = hay := by
  induction hay with
  | nil =>
    rw [strstr]
    constructor
    · intro h
      have : needle.isPrefixOf [] = true := by
        cases hn : needle.isPrefixOf ([] : List Char)
        · rw [hn] at h; exact absurd h (by simp)
        · rfl
      cases needle with
      | nil => exact ⟨[], [], rfl⟩
      | cons c t => exact absurd this (by simp [List.isPrefixOf])
    · rintro ⟨pre, post, h⟩
      have hpre : pre = [] := by
        cases pre with
        | nil => rfl
        | cons a b => exact absurd h (by simp)
      subst hpre
      have hne : needle = [] := by
        cases needle with
        | nil => rfl
        | cons a b => exact absurd h (by simp)
      subst hne
      simp [List.isPrefixOf]
  | cons a t ih =>
    rw [strstr]
    constructor
    · intro h
      rcases Bool.or_eq_true_iff.mp h with hp | hrec
      · rcases List.isPrefixOf_iff_prefix.mp hp with ⟨post, hpost⟩
        exact ⟨[], post, by simpa using hpost⟩
      · rcases ih.mp hrec with ⟨pre, post, hp⟩
        exact ⟨a :: pre, post, by simp [hp]⟩
    · rintro ⟨pre, post, h⟩
      cases pre with
      | nil =>
        apply Bool.or_eq_true_iff.mpr
        left
        exact List.isPrefixOf_iff_prefix.mpr ⟨post, by simpa using h⟩
      | cons b bs =>
        apply Bool.or_eq_true_iff.mpr
        right
        have hb : b = a := by
          have := congrArg (fun l => l.head?) h
          simpa using this
        subst hb
        exact ih.mpr ⟨bs, post, by simpa using h⟩

/-- Two XORs with the same key byte cancel. -/
theorem decryptFrom_involutive (seed : Nat) (x : List Nat) :
    ∀ i, decryptFrom seed i (decryptFrom seed i x) = x := by
  induction x with
  | nil => intro i; rfl
  | cons b t ih =>
    intro i
    simp [decryptFrom, ih (i + 1), Nat.xor_assoc, Nat.xor_self]

/-- C3: the XOR string-scrambling transform is self-inverse: for every
byte sequence (including the empty one) and every seed, applying
`decrypt_string` twice with the same key schedule and seed returns the
original sequence. -/
theorem C3_decrypt_string_self_inverse (x : List Nat) (seed : Nat) :
    decrypt_string (decrypt_string x seed) seed = x :=
  decryptFrom_involutive seed x 0

/-- The flag after a run is its initial value OR-ed with whether some
operation of the run sets it. -/
theorem runOps_flag (ops : List ModuleOp) :
    ∀ st, (runOps ops st).debugger_detected =
      (st.debugger_detected || ops.any setsFlag) := by
  induction ops with
  | nil => intro st; simp [runOps]
  | cons op rest ih =>
    intro st
    rw [runOps, ih]
    have hstep : (stepOp op st).debugger_detected =
        (st.debugger_detected || setsFlag op) := by
      cases op with
      | deliverTrap s =>
        simp only [stepOp, sigtrap_handler, setsFlag]
        by_cases h : s = Sig.SIGTRAP <;> simp [h]
      | deliverStopCont s =>
        simp only [stepOp, sigstop_handler, setsFlag]
        by_cases h : s = Sig.SIGSTOP ∨ s = Sig.SIGCONT <;> simp [h]
      | signalCheckCall => simp [stepOp, setsFlag]
      | otherNativeCall => simp [stepOp, setsFlag]
    rw [hstep, List.any_cons, Bool.or_assoc]

/-- C9: the DetectionFlag is sticky for the process lifetime: no module
operation ever clears it, so once set it stays set across any sequence of
operations; the signal-observation query returns the flag value, and from
a freshly-installed (unset) state it returns Suspicious iff some
operation of the run has set the flag. -/
theorem C9_detection_flag_sticky :
    (∀ ops st, st.debugger_detected = true →
      (runOps ops st).debugger_detected = true) ∧
    (∀ st, nativeSignalCheck st = st.debugger_detected) ∧
    (∀ ops, nativeSignalCheck (runOps ops { debugger_detected := false }) = true ↔
      ∃ op ∈ ops, setsFlag op = true) := by
  refine ⟨?_, fun st => rfl, ?_⟩
  · intro ops st h
    rw [runOps_flag, h, Bool.true_or]
  · intro ops
    rw [nativeSignalCheck, runOps_flag]
    simp [List.any_eq_true]

/-- C9 witness: a concrete already-set state stays set across a run, by
the sticky theorem. -/
theorem C9_witness :
    (runOps [ModuleOp.otherNativeCall, ModuleOp.signalCheckCall,
      ModuleOp.deliverTrap Sig.otherSig] { debugger_detected := true }).debugger_detected
      = true :=
  C9_detection_flag_sticky.1 _ { debugger_detected := true } rfl

/-- The opaque predicate gating the obfuscated branches is always true. -/
theorem alwaysTruePred_eq (now : Int) : alwaysTruePred now = true := by
  rw [alwaysTruePred]
  rcases lt_or_ge 0 now with h | h
  · simp [h]
  · simp [Int.le_of_lt, h]

/-- C1: the self-ptrace probe restores the untraced state on every exit
path: the detach is performed exactly when the trace-self request did not
fail with EPERM (so on success and on every non-EPERM failure), and after
any call the tracing state equals the state before the call; the
obfuscated check's ptrace branch likewise performs its detach on every
exit path. -/
theorem C1_ptrace_probe_restores_state :
    (∀ env s, (nativePtraceCheck env s).detachPerformed =
      decide ((traceme env s).1 ≠ PtraceOutcome.epermFail)) ∧
    (∀ env s, (nativePtraceCheck env s).post = s) ∧
    (∀ env s, (check_debugger_obfuscated env s 0).detachPerformed = true) := by
  refine ⟨?_, ?_, ?_⟩
  · rintro ⟨o⟩ ⟨d, r⟩
    cases o <;> cases d <;> cases r <;> rfl
  · rintro ⟨o⟩ ⟨d, r⟩
    cases o <;> cases d <;> cases r <;> rfl
  · intro env s
    rw [check_debugger_obfuscated]
    simp [alwaysTruePred_eq]

/-- C10 counterexample: with core-dump disabling succeeding and the
trace-self request failing with a non-EPERM errno on an untraced process,
`nativeHardenSystem` returns true, yet the process is not traced after
the call — the claim that a successful call always leaves the process in
the trace-requested state is false. -/
theorem C10_counterexample :
    (nativeHardenSystem { prctlFails := false, ptrace := { tracemeOtherFail := true } }
      { tracedByDebugger := false, selfTraceRequested := false }).result = true ∧
    (nativeHardenSystem { prctlFails := false, ptrace := { tracemeOtherFail := true } }
      { tracedByDebugger := false, selfTraceRequested := false }).post.traced = false := by
  constructor <;> rfl

/-- C10 amended: whenever `nativeHardenSystem` returns true it has issued
a trace-self request; the function never performs a detach; and when the
trace-self request itself succeeded the process remains in the
trace-requested (traced) state after the call — the mutation is not
reversed. (When the request fails with a non-EPERM error the call still
returns true with the tracing state unchanged.) -/
theorem C10_harden_no_detach (env : HardenEnv) (s : ProcState) :
    ((nativeHardenSystem env s).result = true →
      (nativeHardenSystem env s).tracemeIssued = true) ∧
    (nativeHardenSystem env s).detachIssued = false ∧
    ((nativeHardenSystem env s).result = true →
      (traceme env.ptrace s).1 = PtraceOutcome.ok →
      (nativeHardenSystem env s).post.traced = true) := by
  obtain ⟨pf, ⟨o⟩⟩ := env
  obtain ⟨d, r⟩ := s
  cases pf <;> cases o <;> cases d <;> cases r <;> decide

/-- C10 witness: in a concrete clean environment the hardening call
succeeds and leaves the process traced, by the amended theorem. -/
theorem C10_witness :
    (nativeHardenSystem { prctlFails := false, ptrace := { tracemeOtherFail := false } }
      { tracedByDebugger := false, selfTraceRequested := false }).post.traced = true :=
  (C10_harden_no_detach { prctlFails := false, ptrace := { tracemeOtherFail := false } }
    { tracedByDebugger := false, selfTraceRequested := false }).2.2 (by decide) (by decide)

/-- C4 counterexample: in a fixed environment (same status file, same
environment variables, same ptrace behaviour) where the `DEBUG`
environment variable is set but no tracer is present, branch 0 of the
obfuscated check returns Clear while the default branch returns
Suspicious — the returned boolean does depend on the clock-derived
branch selector. -/
theorem C4_counterexample :
    (check_debugger_obfuscated
      { ptrace := { tracemeOtherFail := false }, status := some [],
        debugEnvSet := true, androidDebugEnvSet := false,
        junkInt := 0, clockReading := 1 }
      { tracedByDebugger := false, selfTraceRequested := false } 0).result = false ∧
    (check_debugger_obfuscated
      { ptrace := { tracemeOtherFail := false }, status := some [],
        debugEnvSet := true, androidDebugEnvSet := false,
        junkInt := 0, clockReading := 1 }
      { tracedByDebugger := false, selfTraceRequested := false } 2).result = true := by
  constructor <;> rfl

/-- C4 amended: the three branches of the obfuscated check run three
distinct probes (self-ptrace, TracerPid scan, debug environment
variables), so the returned boolean is independent of the clock-derived
branch selector exactly when those three probes agree on the given
environment state; in general it can depend on the selected branch. -/
theorem C4_branch_independence_iff (env : ObfEnv) (s : ProcState) :
    (∀ b c : Int, (check_debugger_obfuscated env s b).result =
      (check_debugger_obfuscated env s c).result) ↔
    (ptraceProbeResult env s = tracerPidProbe env ∧
      tracerPidProbe env = envVarProbe env) := by
  have hres : ∀ b : Int, (check_debugger_obfuscated env s b).result =
      if b = 0 then ptraceProbeResult env s
      else if b = 1 then tracerPidProbe env
      else envVarProbe env := by
    intro b
    rw [check_debugger_obfuscated]
    by_cases h0 : b = 0
    · simp [h0, alwaysTruePred_eq, ptraceProbeResult]
    · by_cases h1 : b = 1 <;> simp [h0, h1, alwaysTruePred_eq]
  constructor
  · intro h
    constructor
    · have := h 0 1
      rw [hres 0, hres 1] at this
      simpa using this
    · have := h 1 2
      rw [hres 1, hres 2] at this
      simpa using this
  · rintro ⟨h1, h2⟩ b c
    rw [hres b, hres c]
    split <;> split <;> simp_all

/-- C2 counterexample: a status record holding a zero TracerPid line
followed by a nonzero one contains a TracerPid field whose value parses
to a nonzero integer, yet the probe returns Clear — it consults only the
first TracerPid line. -/
theorem C2_counterexample :
    (∃ l ∈ dupTracerStatus, tracerPidLabel.isPrefixOf l = true ∧
      atoi (l.drop 10) ≠ 0) ∧
    nativeDebuggerCheck (some dupTracerStatus) = false := by
  refine ⟨⟨"TracerPid:\t7".toList, by decide, by decide, by decide⟩, rfl⟩

/-- The line loop returns Suspicious iff the first line starting with
`TracerPid:` has a value that `atoi` parses to a nonzero integer. -/
theorem debuggerCheckLines_iff (lines : List (List Char)) :
    debuggerCheckLines lines = true ↔
      ∃ l, lines.find? (fun x => tracerPidLabel.isPrefixOf x) = some l ∧
        atoi (l.drop 10) ≠ 0 := by
  induction lines with
  | nil => simp [debuggerCheckLines]
  | cons a t ih =>
    by_cases hp : tracerPidLabel.isPrefixOf a = true
    · rw [debuggerCheckLines, if_pos hp, List.find?_cons_of_pos _ hp]
      simp
    · rw [debuggerCheckLines, if_neg hp,
        List.find?_cons_of_neg _ (by simpa using hp)]
      exact ih

/-- C2 amended: the tracer-id probe returns Suspicious iff the first
line of the status record beginning with `TracerPid:` carries a value
parsing to a nonzero integer; a first-TracerPid value of 0, an absent
TracerPid line, and an unopenable status file each yield Clear (later
TracerPid lines are never consulted). -/
theorem C2_first_tracerpid_decides :
    nativeDebuggerCheck none = false ∧
    ∀ lines, (nativeDebuggerCheck (some lines) = true ↔
      ∃ l, lines.find? (fun x => tracerPidLabel.isPrefixOf x) = some l ∧
        atoi (l.drop 10) ≠ 0) :=
  ⟨rfl, fun lines => debuggerCheckLines_iff lines⟩

/-- C2 witness: the amended theorem evaluated at a concrete record whose
first TracerPid line is zero. -/
theorem C2_witness :
    nativeDebuggerCheck (some dupTracerStatus) = false := by
  have h := (C2_first_tracerpid_decides.2 dupTracerStatus)
  cases hv : nativeDebuggerCheck (some dupTracerStatus) with
  | false => rfl
  | true =>
    rcases h.mp hv with ⟨l, hfind, hnz⟩
    have : l = "TracerPid:\t0".toList := by
      have : dupTracerStatus.find? (fun x => tracerPidLabel.isPrefixOf x) =
          some ("TracerPid:\t0".toList) := by decide
      rw [this] at hfind
      injection hfind with h2
      exact h2.symm
    subst this
    exact absurd (by decide) hnz

/-- The counting loop counts exactly the lines containing `rwxp` (such a
line always passes the enclosing executable-region test as well). -/
theorem wxCountLines_eq (lines : List (List Char)) :
    wxCountLines lines = (lines.filter (fun l => strstr l rwxpChars)).length := by
  induction lines with
  | nil => rfl
  | cons l t ih =>
    rw [wxCountLines, ih]
    cases hb : strstr l rwxpChars <;>
      simp [hb, List.filter_cons, Nat.add_comm]

/-- C5: the executable-region audit returns Suspicious iff the number of
map lines marked writable+executable (`rwxp`) exceeds 5; a listing with
exactly 5 such lines yields Clear and one with 6 yields Suspicious. -/
theorem C5_memory_check_threshold (lines : List (List Char)) :
    (nativeMemoryCheck (some lines) = true ↔
      5 < (lines.filter (fun l => strstr l rwxpChars)).length) ∧
    nativeMemoryCheck (some (List.replicate 5 rwxpLine)) = false ∧
    nativeMemoryCheck (some (List.replicate 6 rwxpLine)) = true := by
  refine ⟨?_, by decide, by decide⟩
  simp [nativeMemoryCheck, wxCountLines_eq]

/-- C5 witness: the boundary facts of the theorem at a concrete listing. -/
theorem C5_witness :
    nativeMemoryCheck (some (List.replicate 6 rwxpLine)) = true :=
  (C5_memory_check_threshold []).2.2

/-- C6: the breakpoint scan reports Suspicious whenever the single-byte
opcode `0xCC` occurs at any offset of the 4 KiB window — including the
last byte, offset 4095 — and reports Clear on a window containing
neither that opcode nor the 4-byte ARM breakpoint bit pattern at any
offset where the 4-byte read fits. -/
theorem C6_breakpoint_scan (buf : Nat → Nat) :
    (∀ i, i < 4096 → buf i = 0xCC → nativeBreakpointScan buf = true) ∧
    ((∀ i, i < 4096 → buf i ≠ 0xCC) →
      (∀ i, i < 4093 → ¬ word32 buf i &&& 0xFFF000F0 = 0xE1200070) →
      nativeBreakpointScan buf = false) := by
  constructor
  · intro i hi hb
    rw [nativeBreakpointScan, List.any_eq_true]
    exact ⟨i, List.mem_range.mpr hi, by simp [hb]⟩
  · intro h1 h2
    cases hscan : nativeBreakpointScan buf with
    | false => rfl
    | true =>
      exfalso
      rw [nativeBreakpointScan, List.any_eq_true] at hscan
      rcases hscan with ⟨i, hmem, hp⟩
      have hi := List.mem_range.mp hmem
      rcases Bool.or_eq_true_iff.mp hp with hc | harm
      · exact h1 i hi (by simpa using hc)
      · rw [Bool.and_eq_true] at harm
        rcases harm with ⟨hlt, hbp⟩
        exact h2 i (by simpa using hlt)
          (by simpa [armBreakpointAt] using hbp)

/-- C6 witness: the opcode placed exactly at offset 4095 is detected, and
the all-zero window is Clear. -/
theorem C6_witness :
    nativeBreakpointScan bufLast = true ∧ nativeBreakpointScan bufZero = false := by
  constructor
  · exact (C6_breakpoint_scan bufLast).1 4095 (by decide) (by decide)
  · exact (C6_breakpoint_scan bufZero).2
      (fun i _ => by simp [bufZero])
      (fun i _ => by simp [bufZero, word32, Nat.zero_and])

/-- The hook scan finds a token iff some line contains one of the
configured substrings. -/
theorem hookScanLines_isSome (lines : List (List Char)) :
    (hookScanLines lines).isSome = true ↔
      ∃ l ∈ lines, ∃ tok ∈ suspicious_libs, strstr l tok = true := by
  induction lines with
  | nil => simp [hookScanLines]
  | cons l rest ih =>
    cases hf : suspicious_libs.find? (fun tok => strstr l tok) with
    | some tok =>
      simp only [hookScanLines, hf]
      constructor
      · intro _
        exact ⟨l, by simp, tok, List.mem_of_find?_eq_some hf,
          List.find?_some hf⟩
      · intro _
        rfl
    | none =>
      have hnone : ∀ tok ∈ suspicious_libs, ¬ strstr l tok = true := by
        intro tok hmem
        simpa using List.find?_eq_none.mp hf tok hmem
      simp only [hookScanLines, hf]
      rw [ih]
      constructor
      · rintro ⟨l2, hl2, tok, htok, hs⟩
        exact ⟨l2, by simp [hl2], tok, htok, hs⟩
      · rintro ⟨l2, hl2, tok, htok, hs⟩
        rcases List.mem_cons.mp hl2 with h | h
        · subst h
          exact absurd hs (hnone tok htok)
        · exact ⟨l2, h, tok, htok, hs⟩

/-- A token reported by the hook scan is one of the configured substrings
and occurs on some line. -/
theorem hookScanLines_sound (lines : List (List Char)) (tok : List Char) :
    hookScanLines lines = some tok →
      tok ∈ suspicious_libs ∧ ∃ l ∈ lines, strstr l tok = true := by
  induction lines with
  | nil =>
    intro h
    exact absurd h (by simp [hookScanLines])
  | cons l rest ih =>
    intro h
    cases hf : suspicious_libs.find? (fun t => strstr l t) with
    | some tk =>
      simp only [hookScanLines, hf] at h
      injection h with h2
      subst h2
      exact ⟨List.mem_of_find?_eq_some hf, l, by simp, List.find?_some hf⟩
    | none =>
      simp only [hookScanLines, hf] at h
      rcases ih h with ⟨hmem, l2, hl2, hs⟩
      exact ⟨hmem, l2, by simp [hl2], hs⟩

/-- C7: the loaded-library scan returns Suspicious iff some line of the
listing contains one of the configured case-sensitive substrings; the
reported evidence is a configured substring occurring on some line; a
listing containing none, or an unopenable maps file, yields Clear. -/
theorem C7_hook_scan (lines : List (List Char)) :
    ((nativeHookCheck (some lines)).isSome = true ↔
      ∃ l ∈ lines, ∃ tok ∈ suspicious_libs, ∃ pre post, pre ++ tok ++ post = l) ∧
    (∀ tok, nativeHookCheck (some lines) = some tok →
      tok ∈ suspicious_libs ∧ ∃ l ∈ lines, ∃ pre post, pre ++ tok ++ post = l) ∧
    nativeHookCheck none = none := by
  refine ⟨?_, ?_, rfl⟩
  · rw [show nativeHookCheck (some lines) = hookScanLines lines from rfl,
      hookScanLines_isSome]
    constructor
    · rintro ⟨l, hl, tok, htok, hs⟩
      exact ⟨l, hl, tok, htok, (strstr_iff l tok).mp hs⟩
    · rintro ⟨l, hl, tok, htok, hocc⟩
      exact ⟨l, hl, tok, htok, (strstr_iff l tok).mpr hocc⟩
  · intro tok h
    rcases hookScanLines_sound lines tok h with ⟨hmem, l, hl, hs⟩
    exact ⟨hmem, l, hl, (strstr_iff l tok).mp hs⟩

/-- C7 witness: a listing whose single line names an instrumentation
agent library is Suspicious, by the scan theorem. -/
theorem C7_witness :
    (nativeHookCheck (some [fridaMapsLine])).isSome = true :=
  (C7_hook_scan [fridaMapsLine]).1.mpr
    ⟨fridaMapsLine, by simp, "frida".toList, by decide,
      "7ab r-xp 0 fd:00 9 /data/app/".toList, "-agent-64.so".toList, by decide⟩

/-- C8: assuming no superuser binary exists at any probe path, the root
detector returns Suspicious iff some mount-table line contains both the
system mount point and a writable token; a read-only system line, an
empty table, and an unopenable table each yield Clear. -/
theorem C8_root_mount_check (env : RootEnv)
    (hsu : ∀ p ∈ su_paths, env.fileExists p = false) :
    (nativeRootCheck env = true ↔
      ∃ lines, env.mounts = some lines ∧ ∃ l ∈ lines,
        (∃ pre post, pre ++ systemChars ++ post = l) ∧
        (∃ pre post, pre ++ rwChars ++ post = l)) ∧
    nativeRootCheck { env with mounts := some [roMountLine] } = false ∧
    nativeRootCheck { env with mounts := some [] } = false ∧
    nativeRootCheck { env with mounts := none } = false := by
  have hany : su_paths.any (fun p => env.fileExists p) = false := by
    rw [List.any_eq_false]
    intro p hp
    simp [hsu p hp]
  refine ⟨?_, ?_, ?_, ?_⟩
  · simp only [nativeRootCheck, hany, Bool.false_eq_true, if_false]
    cases hm : env.mounts with
    | none => simp
    | some lines =>
      rw [List.any_eq_true]
      constructor
      · rintro ⟨l, hl, hb⟩
        rw [Bool.and_eq_true] at hb
        rcases hb with ⟨hA, hB⟩
        exact ⟨lines, rfl, l, hl, (strstr_iff l systemChars).mp hA,
          (strstr_iff l rwChars).mp hB⟩
      · rintro ⟨lines2, heq, l, hl, hA, hB⟩
        injection heq with heq2
        subst heq2
        refine ⟨l, hl, ?_⟩
        rw [Bool.and_eq_true]
        exact ⟨(strstr_iff l systemChars).mpr hA, (strstr_iff l rwChars).mpr hB⟩
  · simp only [nativeRootCheck, hany, Bool.false_eq_true, if_false]
    decide
  · simp only [nativeRootCheck, hany, Bool.false_eq_true, if_false]
    rfl
  · simp only [nativeRootCheck, hany, Bool.false_eq_true, if_false]

/-- C1 witness: the probe applied in a concrete clean environment leaves
the state unchanged, by the restoration theorem. -/
theorem C1_witness :
    (nativePtraceCheck { tracemeOtherFail := false } untracedState).post =
      untracedState :=
  C1_ptrace_probe_restores_state.2.1 { tracemeOtherFail := false } untracedState

/-- C3 witness: the self-inverse theorem evaluated on a concrete byte
sequence and seed. -/
theorem C3_witness :
    decrypt_string (decrypt_string [0x66, 0x72, 0x69, 0x64, 0x61] 7) 7 =
      [0x66, 0x72, 0x69, 0x64, 0x61] :=
  C3_decrypt_string_self_inverse [0x66, 0x72, 0x69, 0x64, 0x61] 7

/-- C4 witness: in an environment with no debugger indicator the three
probes agree, so by the amended theorem the result is the same on two
different branch selections. -/
theorem C4_witness :
    (check_debugger_obfuscated obfCleanEnv untracedState 0).result =
      (check_debugger_obfuscated obfCleanEnv untracedState 2).result :=
  (C4_branch_independence_iff obfCleanEnv untracedState).mpr
    ⟨by decide, by decide⟩ 0 2

/-- C8 witness: with no superuser binary present and a writable system
mount line, the detector is Suspicious, by the mount-check theorem. -/
theorem C8_witness : nativeRootCheck rootEnvW = true :=
  ((C8_root_mount_check rootEnvW (fun p _ => rfl)).1).mpr
    ⟨[rwMountLine], rfl, rwMountLine, by simp,
      ⟨"/dev/block/dm-0 ".toList, " ext4 rw,seclabel 0 0".toList, by decide⟩,
      ⟨"/dev/block/dm-0 /system ext4 ".toList, ",seclabel 0 0".toList, by decide⟩⟩

end RASP
